import Mathlib

/-!
Verification development for the jobshot repository: a shallow embedding of
the connectivity/preflight and job-submission core (server revisions in
src/server.js and the unnamed server revisions) together with the UI
submission handlers (JobRunModal) and the status-polling client, and proofs
of the specified properties over that embedding.
-/

set_option autoImplicit false

/-! ## Data model (src/src/configLoader.ts revision with entrypoint/resources) -/

/-- A cpu/memory quantity pair, as in the resources field of a Job. -/
structure ResourcePair where
  cpu : String
  memory : String
deriving Repr, DecidableEq

/-- The requests/limits pair carried by a job definition (part_006 UI). -/
structure JobResources where
  requests : ResourcePair
  limits : ResourcePair
deriving Repr, DecidableEq

/-- The logical job definition exchanged between UI and server
(interface Job in src/unnamed/part_004). -/
structure JobDef where
  name : String
  description : String
  container : String
  entrypoint : List String
  parameters : List String
  namespaceField : Option String
  resources : Option JobResources
deriving Repr, DecidableEq

/-! ## Slug computation (runK8sJob in src/server.js line 196):
name.toLowerCase().replace(whitespace-run regex, hyphen). -/

/-- The character class matched by the JavaScript whitespace regex class:
WhiteSpace and LineTerminator code points. -/
def jsWhitespace (c : Char) : Bool :=
  let n := c.toNat
  n = 0x9 || n = 0xa || n = 0xb || n = 0xc || n = 0xd || n = 0x20 ||
  n = 0xa0 || n = 0x1680 || (0x2000 ≤ n && n ≤ 0x200a) ||
  n = 0x2028 || n = 0x2029 || n = 0x202f || n = 0x205f ||
  n = 0x3000 || n = 0xfeff

/-- One pass of the global regex replace: prevWs records whether the
previous character belonged to a whitespace run already replaced, so each
maximal whitespace run contributes exactly one hyphen. -/
def collapseWsAux : Bool → List Char → List Char
  | _, [] => []
  | prevWs, c :: cs =>
    if jsWhitespace c then
      if prevWs then collapseWsAux true cs
      else '-' :: collapseWsAux true cs
    else c :: collapseWsAux false cs

/-- Replace each maximal run of whitespace characters by a single hyphen
(the global regex replace in runK8sJob). -/
def collapseWhitespace (l : List Char) : List Char :=
  collapseWsAux false l

/-- The derived object name: lowercase, then whitespace runs to hyphens
(job.name.toLowerCase().replace in runK8sJob, src/server.js line 196). -/
def slug (name : String) : String :=
  ⟨collapseWhitespace (name.data.map Char.toLower)⟩

/-! ## Structural string primitives (JavaScript trim / split / substring
test, evaluable by the kernel) -/

/-- JavaScript String.prototype.trim: strip the same whitespace class from
both ends. -/
def jsTrim (s : String) : String :=
  ⟨(((s.data.dropWhile jsWhitespace).reverse).dropWhile jsWhitespace).reverse⟩

/-- Split a character list at every occurrence of the separator
(String.prototype.split with a one-character separator). -/
def splitOnCharAux (sep : Char) : List Char → List Char → List (List Char)
  | [], acc => [acc.reverse]
  | c :: cs, acc =>
    if c = sep then acc.reverse :: splitOnCharAux sep cs []
    else splitOnCharAux sep cs (c :: acc)

/-- String.prototype.split on a one-character separator. -/
def splitOnChar (sep : Char) (s : String) : List String :=
  (splitOnCharAux sep s.data []).map (fun l => ⟨l⟩)

/-- Occurrence of pat as a contiguous sublist of s (the substring test a
literal-only regular expression performs). -/
def containsSub (pat : List Char) : List Char → Bool
  | [] => pat.isPrefixOf []
  | c :: cs => pat.isPrefixOf (c :: cs) || containsSub pat cs

/-! ## Rendered Job manifest (runK8sJob, src/server.js lines 195-226) -/

/-- The container spec rendered into the Job manifest.  The source object
literal carries name, image, command and args; it sets no resources field,
which we record as resources := none. -/
structure ContainerSpec where
  name : String
  image : String
  command : List String
  args : List String
  resources : Option JobResources
deriving Repr, DecidableEq

/-- metadata of the rendered Job: name, labels, annotations. -/
structure ManifestMetadata where
  name : String
  labels : List (String × String)
  annotations : List (String × String)
deriving Repr, DecidableEq

/-- The pod template inside the Job spec. -/
structure PodTemplate where
  labels : List (String × String)
  containers : List ContainerSpec
  restartPolicy : String
deriving Repr, DecidableEq

/-- The rendered batch/v1 Job manifest. -/
structure JobManifest where
  apiVersion : String
  kind : String
  metadata : ManifestMetadata
  template : PodTemplate
  backoffLimit : Nat
deriving Repr, DecidableEq

/-- The manifest constructed by runK8sJob (src/server.js lines 195-223):
a pure rendering of the job definition.  The container spec copies image,
entrypoint (as command) and parameters (as args); the source sets no
resources field on the container. -/
def runK8sJobManifest (job : JobDef) : JobManifest :=
  let nameSlug := slug job.name
  { apiVersion := "batch/v1"
    kind := "Job"
    metadata :=
      { name := nameSlug
        labels := [("app.kubernetes.io/managed-by", "jobshot"),
                   ("jobshot/name", nameSlug)]
        annotations := [("jobshot/originalName", job.name)] }
    template :=
      { labels := [("jobshot/job", nameSlug)]
        containers := [{ name := nameSlug
                         image := job.container
                         command := job.entrypoint
                         args := job.parameters
                         resources := none }]
        restartPolicy := "Never" }
    backoffLimit := 1 }

/-! ## UI submission handlers (JobRunModal.handleSubmit) -/

/-- stringToParams in part_005/part_006: split on newline, trim each line,
drop empty lines. -/
def stringToParams (value : String) : List String :=
  ((splitOnChar '\n' value).map jsTrim).filter (fun l => l ≠ "")

/-- handleSubmit of the JobRunModal revision without resources
(src/unnamed/part_005 lines 43-61): validates the edited container image,
then submits a job preserving the original entrypoint.  Returns none when
validation blocks the submission. -/
def handleSubmitPart005 (job : JobDef) (container parametersText : String) :
    Option JobDef :=
  let trimmedContainer := jsTrim container
  if trimmedContainer = "" then none
  else
    some { name := job.name
           description := job.description
           namespaceField := job.namespaceField
           container := trimmedContainer
           parameters := stringToParams parametersText
           entrypoint := job.entrypoint
           resources := none }

/-- handleSubmit of the JobRunModal revision with resource fields
(src/unnamed/part_006 lines 75-103): additionally validates that all four
resource quantity strings are non-empty after trimming, and attaches them
verbatim (trimmed) to the submitted job. -/
def handleSubmitPart006 (job : JobDef)
    (container parametersText reqCpu reqMem limCpu limMem : String) :
    Option JobDef :=
  let trimmedContainer := jsTrim container
  if trimmedContainer = "" then none
  else if ¬ ([reqCpu, reqMem, limCpu, limMem].all
      (fun v => (jsTrim v).length > 0)) then none
  else
    some { name := job.name
           description := job.description
           namespaceField := job.namespaceField
           container := trimmedContainer
           parameters := stringToParams parametersText
           entrypoint := job.entrypoint
           resources := some { requests := { cpu := jsTrim reqCpu, memory := jsTrim reqMem }
                               limits := { cpu := jsTrim limCpu, memory := jsTrim limMem } } }

/-! ## String helpers shared by the error-signature tests -/

/-- Substring containment, used to embed the literal-only
regular-expression tests of the source. -/
def containsSubstr (s pat : String) : Bool :=
  containsSub pat.data s.data

/-- ASCII lowercasing of a string, embedding the case-insensitive regex
flag by lowercasing the subject before matching lowercase patterns. -/
def lowerAscii (s : String) : String :=
  ⟨s.data.map Char.toLower⟩

/-! ## Dual calling-convention wrappers
(safeListPods, src/server.js lines 84-106; safeCreateJob, lines 108-129) -/

/-- Outcome of one call against the structured client. -/
inductive CallResult (α : Type) where
  | ok (a : α)
  | err (msg : String)
deriving Repr, DecidableEq

/-- Which calling convention a wrapper used for an attempt. -/
inductive Convention where
  | objectStyle
  | positionalStyle
deriving Repr, DecidableEq

/-- A structured-client method that can be invoked either with an options
object or with a positional namespace argument; each convention is a
function of the (trimmed) namespace. -/
structure DualListClient (α : Type) where
  objectCall : String → CallResult α
  positionalCall : String → CallResult α

/-- The test /Required parameter namespace/ applied to String(e) in
safeListPods and safeCreateJob. -/
def requiredParamSig (msg : String) : Bool :=
  containsSubstr msg "Required parameter namespace"

/-- safeListPods (src/server.js lines 84-106), instrumented with the list of
conventions attempted in order: trims the namespace (empty result throws);
tries the object-style call first; if that fails with the
Required-parameter signature the failure is rethrown at once; any other
failure is retried once positionally, whose own failure propagates. -/
def safeListPodsTrace {α : Type} (client : DualListClient α)
    (namespaceArg : String) : CallResult α × List Convention :=
  let ns := jsTrim namespaceArg
  if ns = "" then
    (CallResult.err "Namespace is empty after trimming.", [])
  else
    match client.objectCall ns with
    | CallResult.ok a => (CallResult.ok a, [Convention.objectStyle])
    | CallResult.err m1 =>
      if requiredParamSig m1 then
        (CallResult.err m1, [Convention.objectStyle])
      else
        match client.positionalCall ns with
        | CallResult.ok a =>
          (CallResult.ok a, [Convention.objectStyle, Convention.positionalStyle])
        | CallResult.err m2 =>
          (CallResult.err m2, [Convention.objectStyle, Convention.positionalStyle])

/-- A create-job client callable with an options object {namespace, body}
or positionally with (namespace, body); each convention is a function of
the trimmed namespace and the manifest. -/
structure DualCreateClient (α : Type) where
  objectCall : String → JobManifest → CallResult α
  positionalCall : String → JobManifest → CallResult α

/-- safeCreateJob (src/server.js lines 108-129), instrumented like
safeListPodsTrace; the manifest body is passed through both conventions. -/
def safeCreateJobTrace {α : Type} (client : DualCreateClient α)
    (namespaceArg : String) (k8sJob : JobManifest) :
    CallResult α × List Convention :=
  let ns := jsTrim namespaceArg
  if ns = "" then
    (CallResult.err "Namespace is empty after trimming (job creation).", [])
  else
    match client.objectCall ns k8sJob with
    | CallResult.ok a => (CallResult.ok a, [Convention.objectStyle])
    | CallResult.err m1 =>
      if requiredParamSig m1 then
        (CallResult.err m1, [Convention.objectStyle])
      else
        match client.positionalCall ns k8sJob with
        | CallResult.ok a =>
          (CallResult.ok a, [Convention.objectStyle, Convention.positionalStyle])
        | CallResult.err m2 =>
          (CallResult.err m2, [Convention.objectStyle, Convention.positionalStyle])

/-! ## Kubernetes version gate
(isVersionSupported and validateK8sConnectivity, src/server.js lines 62-147) -/

/-- Minimum supported major version (src/server.js line 62). -/
def MIN_SUPPORTED_MAJOR : Nat := 1

/-- Minimum supported minor version (src/server.js line 63). -/
def MIN_SUPPORTED_MINOR : Nat := 31

/-- A JavaScript value as it can appear in the version-info fields. -/
inductive JsVal where
  | str (s : String)
  | intVal (n : Int)
  | undef
deriving Repr, DecidableEq

/-- Outcome of evaluating a piece of JavaScript: a value or a thrown
exception. -/
inductive JsOutcome (α : Type) where
  | ok (a : α)
  | thrown (e : String)
deriving Repr, DecidableEq

/-- Embeds (v || empty-string).replace(nondigit-class, empty) from
isVersionSupported: a string is stripped to its digits; undefined is
falsy and coerced to the empty string; the number 0 is falsy and coerced
likewise, while a non-zero number reaches .replace, which numbers do not
have, throwing a TypeError. -/
def jsOrEmptyStripNonDigits : JsVal → JsOutcome String
  | JsVal.str s => JsOutcome.ok ⟨s.data.filter Char.isDigit⟩
  | JsVal.undef => JsOutcome.ok ""
  | JsVal.intVal n =>
    if n = 0 then JsOutcome.ok ""
    else JsOutcome.thrown "TypeError: replace is not a function"

/-- parseInt on an all-digit string: NaN (none) exactly when empty. -/
def parseDigits (s : String) : Option Nat :=
  if s = "" then none
  else some (s.data.foldl (fun n c => n * 10 + (c.toNat - 48)) 0)

/-- isVersionSupported (src/server.js lines 65-82) over a possibly-null
version-info object with major/minor fields: null info is falsy and
unsupported; otherwise both fields are digit-stripped and parsed
(propagating a thrown coercion), NaN in either place is unsupported, and
the comparison requires major > 1, or major = 1 and minor >= 31. -/
def isVersionSupported (info : Option (JsVal × JsVal)) : JsOutcome Bool :=
  match info with
  | none => JsOutcome.ok false
  | some (ma, mi) =>
    match jsOrEmptyStripNonDigits ma with
    | JsOutcome.thrown e => JsOutcome.thrown e
    | JsOutcome.ok sMa =>
      match jsOrEmptyStripNonDigits mi with
      | JsOutcome.thrown e => JsOutcome.thrown e
      | JsOutcome.ok sMi =>
        match parseDigits sMa, parseDigits sMi with
        | some major, some minor =>
          if major > MIN_SUPPORTED_MAJOR then JsOutcome.ok true
          else if major < MIN_SUPPORTED_MAJOR then JsOutcome.ok false
          else JsOutcome.ok (decide (minor ≥ MIN_SUPPORTED_MINOR))
        | _, _ => JsOutcome.ok false

/-- Rendering of a JsVal inside a template literal. -/
def showJsVal : JsVal → String
  | JsVal.str s => s
  | JsVal.intVal n => toString n
  | JsVal.undef => "undefined"

/-- Outcome of the getCode() version fetch at the start of
validateK8sConnectivity. -/
inductive VersionFetch where
  | fetchFail
  | fetched (info : Option (JsVal × JsVal))
deriving Repr, DecidableEq

/-- The version-check step of validateK8sConnectivity (src/server.js lines
133-147): a failed fetch is caught and skipped; a thrown coercion inside
isVersionSupported (or inside the template literal when the info object is
null) is caught by the same inner catch and skipped; a parseable
unsupported version returns the blocking diagnostic.  none means the
preflight proceeds past the version gate. -/
def versionCheckStep : VersionFetch → Option String
  | VersionFetch.fetchFail => none
  | VersionFetch.fetched info =>
    match isVersionSupported info with
    | JsOutcome.thrown _ => none
    | JsOutcome.ok true => none
    | JsOutcome.ok false =>
      match info with
      | none => none
      | some (ma, mi) =>
        some ("Unsupported Kubernetes version " ++ showJsVal ma ++ "." ++
          showJsVal mi ++ ". Minimum required is " ++
          toString MIN_SUPPORTED_MAJOR ++ "." ++ toString MIN_SUPPORTED_MINOR)

/-- Outcome of the listNamespace call in validateK8sConnectivity. -/
inductive NsListOutcome where
  | okList
  | badShape
  | threw (msg : String)
deriving Repr, DecidableEq

/-- validateK8sConnectivity (src/server.js lines 131-182) as a function of
the version fetch and the namespace-list outcome (the best-effort pod list
only logs and cannot change the result): returns none on success or the
blocking diagnostic string. -/
def validateK8sConnectivityModel (vf : VersionFetch) (nsl : NsListOutcome) :
    Option String :=
  match versionCheckStep vf with
  | some m => some m
  | none =>
    match nsl with
    | NsListOutcome.okList => none
    | NsListOutcome.badShape =>
      some "Kubernetes API connectivity check failed: Unexpected response format from listNamespace."
    | NsListOutcome.threw m =>
      some ("Failed to connect to Kubernetes API or list namespaces: " ++ m)

/-! ## POST /api/run-job handlers -/

/-- Outcome of the runK8sJob submission attempt. -/
inductive SubmitOutcome where
  | okName (jobName : String)
  | errMsg (msg : String)
deriving Repr, DecidableEq

/-- Result of a request handler: HTTP status, response body, and whether a
job-creation call was attempted. -/
structure HandlerResult where
  status : Nat
  body : String
  submitAttempted : Bool
deriving Repr, DecidableEq

/-- The POST /api/run-job handler of src/server.js (lines 228-265) as a
function of the validation result, the connectivity-preflight result and
the submission outcome: validation failure gives 400; a preflight
diagnostic is returned with status 400 (line 255) before any submission;
otherwise the job is submitted, 200 on success and 500 on a thrown
failure. -/
def runJobHandlerServerJs (paramError : Option String)
    (connError : Option String) (submit : SubmitOutcome) : HandlerResult :=
  match paramError with
  | some msg => { status := 400, body := msg, submitAttempted := false }
  | none =>
    match connError with
    | some msg => { status := 400, body := msg, submitAttempted := false }
    | none =>
      match submit with
      | SubmitOutcome.okName _ =>
        { status := 200, body := "Job started", submitAttempted := true }
      | SubmitOutcome.errMsg e =>
        { status := 500, body := "Failed to start job: " ++ e,
          submitAttempted := true }

/-- Outcome of a preflight step in the part_001 handler: success, a
returned diagnostic, or a thrown exception reaching the route catch. -/
inductive PreflightOutcome where
  | passed
  | diagnostic (msg : String)
  | threw (e : String)
deriving Repr, DecidableEq

/-- The POST /api/run-job handler of src/unnamed/part_001 (lines 400-449)
as a function of the validation result, the connectivity preflight, the
namespace pod-list preflight and the submission outcome: validation
failure gives 400; a connectivity diagnostic gives 503 with the
Connectivity-preflight prefix and no submission; a pod-list failure gives
503 and no submission; a thrown preflight exception reaches the route
catch and gives 500 without submission; otherwise the job is submitted
(200 on success, 500 on failure). -/
def runJobHandlerPart001 (paramError : Option String)
    (conn : PreflightOutcome) (podList : PreflightOutcome)
    (submit : SubmitOutcome) : HandlerResult :=
  match paramError with
  | some msg => { status := 400, body := msg, submitAttempted := false }
  | none =>
    match conn with
    | PreflightOutcome.threw e =>
      { status := 500, body := "Failed to start job: " ++ e,
        submitAttempted := false }
    | PreflightOutcome.diagnostic msg =>
      { status := 503, body := "Connectivity preflight failed: " ++ msg,
        submitAttempted := false }
    | PreflightOutcome.passed =>
      match podList with
      | PreflightOutcome.threw e =>
        { status := 500, body := "Failed to start job: " ++ e,
          submitAttempted := false }
      | PreflightOutcome.diagnostic msg =>
        { status := 503, body := "Failed to list pods in namespace: " ++ msg,
          submitAttempted := false }
      | PreflightOutcome.passed =>
        match submit with
        | SubmitOutcome.okName _ =>
          { status := 200, body := "Job started", submitAttempted := true }
        | SubmitOutcome.errMsg e =>
          { status := 500, body := "Failed to start job: " ++ e,
            submitAttempted := true }

/-! ## Environment and TLS agent model (src/unnamed/part_001) -/

/-- The environment flags and mounted files consulted by the part_001
prober: SKIP_K8S_TLS_VERIFY, ALLOW_TLS_FALLBACK, and whether the mounted
CA bundle at SA_CA_PATH could be read. -/
structure ProbeEnv where
  skipVerify : Bool
  allowTlsFallbackFlag : Bool
  caPresent : Bool
deriving Repr, DecidableEq

/-- The rejectUnauthorized option of the https.Agent built for the primary
request in rawListPods (src/unnamed/part_001 line 228) and in
selfSubjectAccessReview (line 120): !skipVerify && !!ca. -/
def primaryAgentRejectUnauthorized (env : ProbeEnv) : Bool :=
  (!env.skipVerify) && env.caPresent

/-- allowFallback as computed in the catch branches (lines 153-154 and
261-262): ALLOW_TLS_FALLBACK === true or SKIP_K8S_TLS_VERIFY === true. -/
def allowFallback (env : ProbeEnv) : Bool :=
  env.allowTlsFallbackFlag || env.skipVerify

/-- The cluster/user entry assembled by buildK8sClient
(src/unnamed/part_001 lines 349-364 and loadK8sConfig in src/server.js
lines 184-193) when explicit endpoint and token are present. -/
structure ClientConfig where
  externalMode : Bool
  skipTLSVerify : Bool
deriving Repr, DecidableEq

/-- buildK8sClient: with both VITE_K8S_API and VITE_K8S_TOKEN set the
external kubeconfig is loaded with skipTLSVerify hardcoded to true;
otherwise the in-cluster loader is used (no skip flag involved). -/
def buildK8sClientConfig (apiServer token : Option String) : ClientConfig :=
  match apiServer, token with
  | some _, some _ => { externalMode := true, skipTLSVerify := true }
  | _, _ => { externalMode := false, skipTLSVerify := false }

/-! ## Identifier resolution (the undefined tlsShouldFallback) -/

/-- The top-level function identifiers defined in src/unnamed/part_001. -/
def part001Identifiers : List String :=
  ["getK8sConfig", "validateJobParams", "validateK8sConnectivity",
   "readServiceAccountToken", "buildInClusterBaseURL",
   "selfSubjectAccessReview", "isNetworkError", "rawListPods",
   "listPodsInNamespace", "buildK8sClient", "runK8sJob",
   "logClusterClientDetails"]

/-- Evaluation of a call to a named identifier: if the name is not bound in
the file, JavaScript raises a ReferenceError before any implementation
could run; otherwise the (hypothetical) implementation is applied. -/
def callIdent (defined : List String) (name : String)
    (impl : String → JsOutcome Bool) (arg : String) : JsOutcome Bool :=
  if defined.contains name then impl arg
  else JsOutcome.thrown ("ReferenceError: " ++ name ++ " is not defined")

/-- Short-circuit JavaScript conjunction over evaluation outcomes: the
right operand is evaluated only when the left is truthy. -/
def jsAnd (a : JsOutcome Bool) (b : Unit → JsOutcome Bool) : JsOutcome Bool :=
  match a with
  | JsOutcome.thrown e => JsOutcome.thrown e
  | JsOutcome.ok false => JsOutcome.ok false
  | JsOutcome.ok true => b ()

/-! ## rawListPods (src/unnamed/part_001 lines 199-321) -/

/-- What one fetch of base/api/v1/namespaces/ns/pods can produce: a 2xx
pod list with an item count, a non-2xx response with status and body, or
a rejected fetch carrying an optional error code. -/
inductive FetchOutcome where
  | okList (count : Nat)
  | httpErr (status : Nat) (body : String)
  | fetchErr (code : Option String) (msg : String)
deriving Repr, DecidableEq

/-- isNetworkError (src/unnamed/part_001 lines 193-197): the error code
(err.code or err.cause.code) is one of the five network-level codes. -/
def isNetworkErrorCode (code : Option String) : Bool :=
  match code with
  | some c => ["ECONNREFUSED", "ETIMEDOUT", "ENETUNREACH", "EHOSTUNREACH",
      "ECONNRESET"].contains c
  | none => false

/-- The diagnostic result object of rawListPods. -/
structure RawResult where
  ok : Bool
  count : Option Nat
  errorMsg : Option String
  status : Option Nat
  base : Option String
deriving Repr, DecidableEq

/-- A completed evaluation of rawListPods: either it returned a result
object or an exception escaped it. -/
inductive RawOutcome where
  | ret (r : RawResult)
  | thrown (e : String)
deriving Repr, DecidableEq

/-- What the catch branch decides for one candidate: keep iterating, return
a result, or let an exception escape. -/
inductive CatchFlow where
  | ret (r : RawResult)
  | thrown (e : String)
deriving Repr, DecidableEq

/-- The non-network part of the catch branch of rawListPods
(src/unnamed/part_001 lines 261-305).  Line 263 evaluates
tlsShouldFallback(e) before the opt-in flag; the identifier is resolved
against the definitions of the file, and impl stands for whatever
implementation it would have if it were defined.  insecureRetry is the
outcome of the insecure refetch, were that branch ever reached. -/
def rawCatchNonNetwork (env : ProbeEnv)
    (impl : String → JsOutcome Bool) (e : String) (base : String)
    (insecureRetry : FetchOutcome) : CatchFlow :=
  match jsAnd (callIdent part001Identifiers "tlsShouldFallback" impl e)
      (fun _ => JsOutcome.ok (!allowFallback env)) with
  | JsOutcome.thrown ex => CatchFlow.thrown ex
  | JsOutcome.ok _ =>
    match jsAnd (JsOutcome.ok (allowFallback env))
        (fun _ => callIdent part001Identifiers "tlsShouldFallback" impl e) with
    | JsOutcome.thrown ex => CatchFlow.thrown ex
    | JsOutcome.ok true =>
      match insecureRetry with
      | FetchOutcome.okList n =>
        CatchFlow.ret { ok := true, count := some n, errorMsg := none,
                        status := none, base := some base }
      | FetchOutcome.httpErr s body =>
        CatchFlow.ret { ok := false, count := none,
                        errorMsg := some ("Raw pod list insecure HTTP " ++
                          toString s ++ ": " ++ body),
                        status := some s, base := some base }
      | FetchOutcome.fetchErr _ msg =>
        CatchFlow.ret { ok := false, count := none,
                        errorMsg := some ("Raw pod list insecure retry error: " ++ msg),
                        status := none, base := some base }
    | JsOutcome.ok false =>
      CatchFlow.ret { ok := false, count := none,
                      errorMsg := some ("Raw pod list error: " ++ e),
                      status := none, base := some base }

/-- The candidate loop of rawListPods (src/unnamed/part_001 lines 210-321)
over the ordered list of (base, fetch outcome) pairs, accumulating the
last network error: a 2xx answer returns ok; a non-2xx answer returns the
HTTP diagnostic immediately; a network-level fetch error moves to the
next candidate; any other fetch error enters the non-network catch
branch.  After the loop, a remembered network error or the all-attempts
diagnostic is returned. -/
def rawListPodsLoop (env : ProbeEnv) (impl : String → JsOutcome Bool)
    (insecureRetry : FetchOutcome) :
    List (String × FetchOutcome) → Option (Option String × String × String) →
    RawOutcome
  | [], lastNet =>
    match lastNet with
    | some (code, msg, base) =>
      RawOutcome.ret { ok := false, count := none,
                       errorMsg := some ("Network error (" ++
                         (match code with | some c => c | none => "UNKNOWN") ++
                         "): " ++ msg),
                       status := none, base := some base }
    | none =>
      RawOutcome.ret { ok := false, count := none,
                       errorMsg := some "All base URL attempts failed (explicit/in-cluster).",
                       status := none, base := none }
  | (base, o) :: rest, lastNet =>
    match o with
    | FetchOutcome.okList n =>
      RawOutcome.ret { ok := true, count := some n, errorMsg := none,
                       status := none, base := some base }
    | FetchOutcome.httpErr s body =>
      RawOutcome.ret { ok := false, count := none,
                       errorMsg := some ("Raw pod list HTTP " ++ toString s ++
                         ": " ++ body),
                       status := some s, base := some base }
    | FetchOutcome.fetchErr code msg =>
      if isNetworkErrorCode code then
        rawListPodsLoop env impl insecureRetry rest (some (code, msg, base))
      else
        match rawCatchNonNetwork env impl msg base insecureRetry with
        | CatchFlow.ret r => RawOutcome.ret r
        | CatchFlow.thrown ex => RawOutcome.thrown ex

/-! ## listPodsInNamespace (src/unnamed/part_001 lines 323-347) -/

/-- The signature deciding the parameter-error branch: /parameter/i. -/
def paramRegexSig (err : String) : Bool :=
  containsSubstr (lowerAscii err) "parameter"

/-- The signature deciding the permission stop:
/HTTP 403|forbidden|Unauthorized/i. -/
def permissionRegexSig (err : String) : Bool :=
  containsSubstr (lowerAscii err) "http 403" ||
  containsSubstr (lowerAscii err) "forbidden" ||
  containsSubstr (lowerAscii err) "unauthorized"

/-- What listPodsInNamespace does after the raw attempt. -/
inductive ListPodsDecision where
  | useRaw
  | clientFallback
deriving Repr, DecidableEq

/-- The decision logic of listPodsInNamespace over a failed raw result
(lines 329-337): an error matching /parameter/i proceeds to the
structured client; an error NOT matching the 403/forbidden/unauthorized
signature also proceeds to the structured client; only an error matching
that permission signature (and not the parameter one) returns the raw
result without calling the client.  A successful raw result is returned
as-is. -/
def listPodsDecision (raw : RawResult) : ListPodsDecision :=
  if raw.ok then ListPodsDecision.useRaw
  else
    let err := match raw.errorMsg with | some m => m | none => ""
    if paramRegexSig err then ListPodsDecision.clientFallback
    else if !permissionRegexSig err then ListPodsDecision.clientFallback
    else ListPodsDecision.useRaw

/-! ## RBAC self-check catch branch
(selfSubjectAccessReview, src/unnamed/part_001 lines 141-189) -/

/-- One entry of the results array built by selfSubjectAccessReview. -/
structure RbacEntry where
  action : String
  allowed : Bool
  reason : Option String
  errorMsg : Option String
deriving Repr, DecidableEq

/-- What the catch branch of selfSubjectAccessReview produces for one
action: a pushed result entry, or a thrown exception escaping the loop. -/
inductive RbacFlow where
  | pushed (entry : RbacEntry)
  | thrown (e : String)
deriving Repr, DecidableEq

/-- Outcome of the insecure retry fetch in the RBAC catch branch, were it
reached: a parsed allowed verdict or a rejected fetch. -/
inductive RbacRetryOutcome where
  | verdict (allowed : Bool)
  | failed (msg : String)
deriving Repr, DecidableEq

/-- The catch branch of selfSubjectAccessReview (lines 151-188) for one
action whose primary fetch rejected with message e: the guard
allowFallback && tlsShouldFallback(e) short-circuits on the opt-in flag,
so with the flag unset the documented error entry is pushed; with the
flag set, resolution of the undefined tlsShouldFallback is reached (impl
standing for whatever implementation it would have if defined). -/
def rbacCatch (env : ProbeEnv) (impl : String → JsOutcome Bool)
    (action : String) (e : String) (retry : RbacRetryOutcome) : RbacFlow :=
  match jsAnd (JsOutcome.ok (allowFallback env))
      (fun _ => callIdent part001Identifiers "tlsShouldFallback" impl e) with
  | JsOutcome.thrown ex => RbacFlow.thrown ex
  | JsOutcome.ok true =>
    match retry with
    | RbacRetryOutcome.verdict allowed =>
      RbacFlow.pushed { action := action, allowed := allowed,
                        reason := some "insecure-fallback", errorMsg := none }
    | RbacRetryOutcome.failed msg =>
      RbacFlow.pushed { action := action, allowed := false,
                        reason := none, errorMsg := some ("fallback: " ++ msg) }
  | JsOutcome.ok false =>
    RbacFlow.pushed { action := action, allowed := false,
                      reason := none, errorMsg := some e }

/-! ## GET /api/job-status/:name (Status Fetcher) -/

/-- Modelled from the spec: the server-side handler for
GET /api/job-status/:name?namespace= (Status Fetcher, spec 4.5 and 6) is
absent from src/; only its caller fetchJobStatus in src/src/useJobs.ts
and the JobStatus interface in src/unnamed/part_004 exist.  The cluster
read it performs either finds the Job object with its active/succeeded/
failed counts, finds it absent, or fails at the transport level. -/
inductive ClusterRead where
  | found (active succeeded failed : Nat)
  | absent
  | transportErr (msg : String)
deriving Repr, DecidableEq

/-- The JobStatus object (interface JobStatus, src/unnamed/part_004). -/
structure JobStatusR where
  statusText : String
  existsFlag : Bool
  isRunning : Bool
  details : Option (Nat × Nat × Nat)
  errorMsg : Option String
deriving Repr, DecidableEq

/-- Modelled from the spec: the GET /api/job-status/:name?namespace=
handler (spec 4.5 and 6): malformed requests (empty name) get 400;
otherwise the response is always 200 — an existing Job yields its counts
with running iff active > 0 and a terminal label from succeeded/failed,
an absent Job yields existsFlag false with no error, and a transport
failure is captured in the error field. -/
def jobStatusHandler (name namespaceArg : String) (read : ClusterRead) :
    Nat × JobStatusR :=
  if name = "" then
    (400, { statusText := "Error", existsFlag := false, isRunning := false,
            details := none, errorMsg := some "Malformed request" })
  else
    match read with
    | ClusterRead.found a s f =>
      (200, { statusText :=
                if a > 0 then "Running"
                else if f > 0 then "Failed"
                else if s > 0 then "Succeeded"
                else "Pending"
              existsFlag := true
              isRunning := a > 0
              details := some (a, s, f)
              errorMsg := none })
    | ClusterRead.absent =>
      (200, { statusText := "NotFound", existsFlag := false,
              isRunning := false, details := none, errorMsg := none })
    | ClusterRead.transportErr msg =>
      (200, { statusText := "Error", existsFlag := false, isRunning := false,
              details := none, errorMsg := some msg })

/-! # Theorems -/

/-- Every character emitted by collapseWsAux is either a hyphen or a
non-whitespace character of the input, hence never whitespace. -/
theorem collapseWsAux_no_ws :
    ∀ (l : List Char) (b : Bool) (c : Char),
      c ∈ collapseWsAux b l → jsWhitespace c = false := by
  intro l
  induction l with
  | nil =>
    intro b c h
    simp [collapseWsAux] at h
  | cons a t ih =>
    intro b c h
    cases hws : jsWhitespace a with
    | false =>
      simp [collapseWsAux, hws] at h
      rcases h with rfl | h
      · exact hws
      · exact ih false c h
    | true =>
      cases b with
      | true =>
        simp [collapseWsAux, hws] at h
        exact ih true c h
      | false =>
        simp [collapseWsAux, hws] at h
        rcases h with rfl | h
        · decide
        · exact ih true c h

/-- Claim C7: the Job Spec Builder is a pure deterministic function of its
input (identical input yields identical manifests), the derived object
name is the slug of the display name, the slug contains no whitespace
character, and the display name Backup Database yields backup-database. -/
theorem c7_builder_pure_slug_no_whitespace :
    (∀ j : JobDef, runK8sJobManifest j = runK8sJobManifest j) ∧
    (∀ j : JobDef, (runK8sJobManifest j).metadata.name = slug j.name) ∧
    (∀ (name : String) (c : Char), c ∈ (slug name).data → jsWhitespace c = false) ∧
    slug "Backup Database" = "backup-database" := by
  refine ⟨fun _ => rfl, fun _ => rfl, ?_, by decide⟩
  intro name c h
  exact collapseWsAux_no_ws _ false c h

/-- Claim C1 (evidence of the divergence): the part_006 modal accepts the
operator-approved resource quantities and submits a job definition
carrying them verbatim, yet the manifest rendered by runK8sJob carries no
resources in its container spec — the submitted execution environment
drops the approved requests/limits. -/
theorem c1_resources_dropped :
    (handleSubmitPart006
        { name := "Backup Database", description := "nightly backup",
          container := "backup-db:latest", entrypoint := ["/bin/sh", "-c"],
          parameters := ["./backup.sh --db=main"],
          namespaceField := some "jobshot", resources := none }
        "backup-db:latest" "./backup.sh --db=main"
        "250m" "64Mi" "500m" "128Mi").map
      (fun u => (u.resources,
        (runK8sJobManifest u).template.containers.map
          (fun c => c.resources))) =
    some (some { requests := { cpu := "250m", memory := "64Mi" },
                 limits := { cpu := "500m", memory := "128Mi" } },
          [none]) := by decide

/-- Claim C6: the rendered manifest command equals the input entrypoint
verbatim, and a submission through the part_005 modal — whatever the user
typed into the image and parameters fields — reaches the builder with the
original entrypoint unchanged. -/
theorem c6_entrypoint_verbatim :
    (∀ j : JobDef,
      (runK8sJobManifest j).template.containers.map (fun c => c.command) =
        [j.entrypoint]) ∧
    (∀ (job : JobDef) (container parametersText : String) (u : JobDef),
      handleSubmitPart005 job container parametersText = some u →
      u.entrypoint = job.entrypoint ∧
      (runK8sJobManifest u).template.containers.map (fun c => c.command) =
        [job.entrypoint]) := by
  constructor
  · intro j
    rfl
  · intro job container parametersText u h
    unfold handleSubmitPart005 at h
    by_cases hc : jsTrim container = ""
    · simp [hc] at h
    · simp only [hc, if_false, if_neg hc, Option.some.injEq] at h
      subst h
      exact ⟨rfl, rfl⟩

/-- Witness for C6 at a concrete edited submission. -/
theorem c6_entrypoint_verbatim_witness :
    handleSubmitPart005
        { name := "Backup Database", description := "nightly backup",
          container := "backup-db:latest", entrypoint := ["/bin/sh", "-c"],
          parameters := ["./backup.sh --db=main"],
          namespaceField := some "jobshot", resources := none }
        " other-image:2 " "--fast\n\n --db=alt "
      = some
        { name := "Backup Database", description := "nightly backup",
          container := "other-image:2", entrypoint := ["/bin/sh", "-c"],
          parameters := ["--fast", "--db=alt"],
          namespaceField := some "jobshot", resources := none } ∧
    (runK8sJobManifest
        { name := "Backup Database", description := "nightly backup",
          container := "other-image:2", entrypoint := ["/bin/sh", "-c"],
          parameters := ["--fast", "--db=alt"],
          namespaceField := some "jobshot", resources := none
          }).template.containers.map (fun c => c.command) =
      [["/bin/sh", "-c"]] :=
  ⟨by decide,
   (c6_entrypoint_verbatim.2
      { name := "Backup Database", description := "nightly backup",
        container := "backup-db:latest", entrypoint := ["/bin/sh", "-c"],
        parameters := ["./backup.sh --db=main"],
        namespaceField := some "jobshot", resources := none }
      " other-image:2 " "--fast\n\n --db=alt "
      { name := "Backup Database", description := "nightly backup",
        container := "other-image:2", entrypoint := ["/bin/sh", "-c"],
        parameters := ["--fast", "--db=alt"],
        namespaceField := some "jobshot", resources := none }
      (by decide)).2⟩

/-- Claim C2 counterexample: an object-style failure that carries the
Required-parameter signature is propagated at once — the wrapper does NOT
retry with the positional convention as the claim states, even though the
positional call would have succeeded. -/
theorem c2_required_param_counterexample :
    requiredParamSig "Error: Required parameter namespace was null or undefined when calling listNamespacedPod." = true ∧
    safeListPodsTrace
        { objectCall := fun _ =>
            CallResult.err "Error: Required parameter namespace was null or undefined when calling listNamespacedPod."
          positionalCall := fun _ => CallResult.ok 0 }
        "jobshot" =
      (CallResult.err "Error: Required parameter namespace was null or undefined when calling listNamespacedPod.",
       [Convention.objectStyle]) := by
  constructor
  · decide
  · decide

/-- Claim C2 amended: both wrappers attempt the object-style convention
first; a failure matching the Required-parameter signature propagates
immediately with no second attempt; any other failure triggers exactly
one retry with the positional convention, whose own result (success or
failure) is final. -/
theorem c2_dual_convention_amended {α : Type}
    (client : DualListClient α) (createClient : DualCreateClient α)
    (ns : String) (body : JobManifest) (hns : ¬ jsTrim ns = "") :
    (∀ a, client.objectCall (jsTrim ns) = CallResult.ok a →
      safeListPodsTrace client ns = (CallResult.ok a, [Convention.objectStyle])) ∧
    (∀ m, client.objectCall (jsTrim ns) = CallResult.err m →
      requiredParamSig m = true →
      safeListPodsTrace client ns = (CallResult.err m, [Convention.objectStyle])) ∧
    (∀ m, client.objectCall (jsTrim ns) = CallResult.err m →
      requiredParamSig m = false →
      (safeListPodsTrace client ns).1 = client.positionalCall (jsTrim ns) ∧
      (safeListPodsTrace client ns).2 =
        [Convention.objectStyle, Convention.positionalStyle]) ∧
    (∀ m, createClient.objectCall (jsTrim ns) body = CallResult.err m →
      requiredParamSig m = true →
      safeCreateJobTrace createClient ns body =
        (CallResult.err m, [Convention.objectStyle])) ∧
    (∀ m, createClient.objectCall (jsTrim ns) body = CallResult.err m →
      requiredParamSig m = false →
      (safeCreateJobTrace createClient ns body).1 =
        createClient.positionalCall (jsTrim ns) body ∧
      (safeCreateJobTrace createClient ns body).2 =
        [Convention.objectStyle, Convention.positionalStyle]) := by
  refine ⟨?_, ?_, ?_, ?_, ?_⟩
  · intro a hobj
    unfold safeListPodsTrace
    simp only [if_neg hns, hobj]
  · intro m hobj hsig
    unfold safeListPodsTrace
    simp only [if_neg hns, hobj, hsig, if_true]
  · intro m hobj hsig
    unfold safeListPodsTrace
    simp only [if_neg hns, hobj, hsig, Bool.false_eq_true, if_false]
    cases hpos : client.positionalCall (jsTrim ns) with
    | ok a => exact ⟨rfl, rfl⟩
    | err m2 => exact ⟨rfl, rfl⟩
  · intro m hobj hsig
    unfold safeCreateJobTrace
    simp only [if_neg hns, hobj, hsig, if_true]
  · intro m hobj hsig
    unfold safeCreateJobTrace
    simp only [if_neg hns, hobj, hsig, Bool.false_eq_true, if_false]
    cases hpos : createClient.positionalCall (jsTrim ns) body with
    | ok a => exact ⟨rfl, rfl⟩
    | err m2 => exact ⟨rfl, rfl⟩

/-- Witness for the amended C2: a non-matching failure is retried exactly
once positionally, and the positional result is final. -/
theorem c2_dual_convention_amended_witness :
    (safeListPodsTrace
        { objectCall := fun _ => CallResult.err "socket hang up"
          positionalCall := fun _ => CallResult.ok 3 }
        "jobshot").2 =
      [Convention.objectStyle, Convention.positionalStyle] :=
  ((c2_dual_convention_amended
      { objectCall := fun _ => CallResult.err "socket hang up"
        positionalCall := fun _ => CallResult.ok 3 }
      { objectCall := fun _ _ => CallResult.err "socket hang up"
        positionalCall := fun _ _ => CallResult.ok 3 }
      "jobshot" (runK8sJobManifest
        { name := "n", description := "", container := "c",
          entrypoint := [], parameters := [], namespaceField := none,
          resources := none })
      (by decide)).2.2.1 "socket hang up" rfl (by decide)).2

/-- Claim C3 counterexample: in the src/server.js handler a request that
passes field validation but fails the connectivity preflight is answered
with status 400 — the status reserved for malformed input — not 503. -/
theorem c3_preflight_status_counterexample :
    runJobHandlerServerJs none
        (some "Failed to connect to Kubernetes API or list namespaces: connect ECONNREFUSED")
        (SubmitOutcome.okName "backup-database") =
      { status := 400,
        body := "Failed to connect to Kubernetes API or list namespaces: connect ECONNREFUSED",
        submitAttempted := false } ∧
    ¬ (runJobHandlerServerJs none
        (some "Failed to connect to Kubernetes API or list namespaces: connect ECONNREFUSED")
        (SubmitOutcome.okName "backup-database")).status = 503 := by
  constructor
  · rfl
  · decide

/-- Claim C3 amended: in the part_001 revision a validated request whose
preflight returns a diagnostic is answered 503 with the plain-text
diagnostic and no submission attempt (for both the connectivity check and
the pod-list check), and a validated request never gets 400 there; the
src/server.js revision instead reports the same situation as 400, the
status it also uses for malformed input, still without submitting. -/
theorem c3_preflight_status_amended :
    ∀ (msg : String) (pl : PreflightOutcome) (s : SubmitOutcome),
      runJobHandlerPart001 none (PreflightOutcome.diagnostic msg) pl s =
        { status := 503, body := "Connectivity preflight failed: " ++ msg,
          submitAttempted := false } ∧
      runJobHandlerPart001 none PreflightOutcome.passed
          (PreflightOutcome.diagnostic msg) s =
        { status := 503, body := "Failed to list pods in namespace: " ++ msg,
          submitAttempted := false } ∧
      ¬ (runJobHandlerPart001 none (PreflightOutcome.diagnostic msg) pl s).status = 400 ∧
      runJobHandlerServerJs none (some msg) s =
        { status := 400, body := msg, submitAttempted := false } := by
  intro msg pl s
  refine ⟨rfl, rfl, ?_, rfl⟩
  simp [runJobHandlerPart001]

/-- Claim C4 (Status Fetcher, modelled from the spec): every well-formed
job-status request is answered 200; an absent Job yields existsFlag false
with no error rather than a not-found failure; a transport failure is
captured in the error field of a 200 response. -/
theorem c4_job_status_contract (name ns : String) (read : ClusterRead)
    (h : ¬ name = "") :
    (jobStatusHandler name ns read).1 = 200 ∧
    ((jobStatusHandler name ns ClusterRead.absent).2.existsFlag = false ∧
     (jobStatusHandler name ns ClusterRead.absent).2.isRunning = false ∧
     (jobStatusHandler name ns ClusterRead.absent).2.errorMsg = none) ∧
    (∀ m, (jobStatusHandler name ns (ClusterRead.transportErr m)).1 = 200 ∧
      (jobStatusHandler name ns (ClusterRead.transportErr m)).2.errorMsg = some m) := by
  unfold jobStatusHandler
  refine ⟨?_, ?_, ?_⟩
  · cases read <;> simp [h]
  · simp [h]
  · intro m
    simp [h]

/-- Witness for C4 at a concrete polled job. -/
theorem c4_job_status_contract_witness :
    (jobStatusHandler "backup-database" "jobshot" ClusterRead.absent).1 = 200 ∧
    (jobStatusHandler "backup-database" "jobshot" ClusterRead.absent).2.existsFlag = false :=
  ⟨(c4_job_status_contract "backup-database" "jobshot" ClusterRead.absent
      (by decide)).1,
   (c4_job_status_contract "backup-database" "jobshot" ClusterRead.absent
      (by decide)).2.1.1⟩

/-- Claim C5 counterexample: with neither opt-in flag set and the CA
bundle unreadable, the agent of the primary (non-retry) request is built
with rejectUnauthorized false — certificate verification is disabled
without the explicit TLS opt-in. -/
theorem c5_insecure_without_optin_counterexample :
    primaryAgentRejectUnauthorized
        { skipVerify := false, allowTlsFallbackFlag := false,
          caPresent := false } = false ∧
    allowFallback
        { skipVerify := false, allowTlsFallbackFlag := false,
          caPresent := false } = false := by
  constructor
  · decide
  · decide

/-- Claim C5 amended: the insecure-retry branch is indeed gated on the
opt-in (without ALLOW_TLS_FALLBACK or SKIP_K8S_TLS_VERIFY the RBAC catch
pushes the trust error and performs no insecure retry; with the opt-in
the guard reaches the undefined tlsShouldFallback and throws instead of
retrying) — but certificate verification itself is not so gated: the
primary request agent disables verification whenever the CA bundle is
absent, and the external-mode structured client is always configured
with skipTLSVerify true. -/
theorem c5_tls_optin_amended :
    (∀ (env : ProbeEnv) (impl : String → JsOutcome Bool) (a e : String)
        (retry : RbacRetryOutcome),
      allowFallback env = false →
      rbacCatch env impl a e retry =
        RbacFlow.pushed { action := a, allowed := false, reason := none,
                          errorMsg := some e }) ∧
    (∀ (env : ProbeEnv) (impl : String → JsOutcome Bool) (a e : String)
        (retry : RbacRetryOutcome),
      allowFallback env = true →
      rbacCatch env impl a e retry =
        RbacFlow.thrown "ReferenceError: tlsShouldFallback is not defined") ∧
    (∀ sv af : Bool,
      primaryAgentRejectUnauthorized
        { skipVerify := sv, allowTlsFallbackFlag := af, caPresent := false } =
        false) ∧
    (∀ apiServer token : String,
      (buildK8sClientConfig (some apiServer) (some token)).skipTLSVerify =
        true) := by
  refine ⟨?_, ?_, ?_, ?_⟩
  · intro env impl a e retry hflag
    unfold rbacCatch
    simp [jsAnd, hflag]
  · intro env impl a e retry hflag
    unfold rbacCatch
    simp [jsAnd, hflag, callIdent, part001Identifiers]
  · intro sv af
    cases sv <;> rfl
  · intro apiServer token
    rfl

/-- Witness for the amended C5 at a concrete environment. -/
theorem c5_tls_optin_amended_witness :
    rbacCatch { skipVerify := false, allowTlsFallbackFlag := false,
                caPresent := true }
        (fun _ => JsOutcome.ok true) "create jobs" "self-signed certificate"
        (RbacRetryOutcome.verdict true) =
      RbacFlow.pushed { action := "create jobs", allowed := false,
                        reason := none,
                        errorMsg := some "self-signed certificate" } :=
  (c5_tls_optin_amended.1
    { skipVerify := false, allowTlsFallbackFlag := false, caPresent := true }
    (fun _ => JsOutcome.ok true) "create jobs" "self-signed certificate"
    (RbacRetryOutcome.verdict true) (by decide))

/-- Claim C8 counterexample: a candidate answering HTTP 401 (body without
the forbidden/unauthorized keywords) does stop the endpoint iteration,
but listPodsInNamespace then proceeds to the structured-client fallback —
contradicting that a 401 is treated as a permission stop with no
structured-client fallback. -/
theorem c8_permission_stop_counterexample :
    rawListPodsLoop
        { skipVerify := false, allowTlsFallbackFlag := false, caPresent := true }
        (fun _ => JsOutcome.ok false) (FetchOutcome.okList 0)
        [("https://10.0.0.1:6443", FetchOutcome.httpErr 401 "no token supplied")]
        none =
      RawOutcome.ret { ok := false, count := none,
                       errorMsg := some "Raw pod list HTTP 401: no token supplied",
                       status := some 401, base := some "https://10.0.0.1:6443" } ∧
    listPodsDecision { ok := false, count := none,
                       errorMsg := some "Raw pod list HTTP 401: no token supplied",
                       status := some 401, base := some "https://10.0.0.1:6443" } =
      ListPodsDecision.clientFallback := by
  constructor
  · decide
  · decide

/-- Claim C8 amended: a network-level failure moves to the next candidate,
and only after all candidates are exhausted does the probe fail with the
remembered network error; any non-2xx answer stops the endpoint
iteration immediately; the structured-client fallback is skipped exactly
when the diagnostic matches the permission signature (HTTP 403, forbidden
or unauthorized, case-insensitive) without matching the parameter
signature — which a 403 diagnostic does, while a 401 diagnostic whose
body lacks those keywords does not, so the latter proceeds to the
structured-client fallback. -/
theorem c8_endpoint_iteration_amended :
    (∀ (env : ProbeEnv) (impl : String → JsOutcome Bool)
        (retry : FetchOutcome) (base : String) (code : Option String)
        (msg : String) (rest : List (String × FetchOutcome))
        (lastNet : Option (Option String × String × String)),
      isNetworkErrorCode code = true →
      rawListPodsLoop env impl retry ((base, FetchOutcome.fetchErr code msg) :: rest) lastNet =
        rawListPodsLoop env impl retry rest (some (code, msg, base))) ∧
    (∀ (env : ProbeEnv) (impl : String → JsOutcome Bool)
        (retry : FetchOutcome) (c msg base : String),
      rawListPodsLoop env impl retry [] (some (some c, msg, base)) =
        RawOutcome.ret { ok := false, count := none,
                         errorMsg := some ("Network error (" ++ c ++ "): " ++ msg),
                         status := none, base := some base }) ∧
    (∀ (env : ProbeEnv) (impl : String → JsOutcome Bool)
        (retry : FetchOutcome) (base : String) (s : Nat) (bodyS : String)
        (rest : List (String × FetchOutcome))
        (lastNet : Option (Option String × String × String)),
      rawListPodsLoop env impl retry ((base, FetchOutcome.httpErr s bodyS) :: rest) lastNet =
        RawOutcome.ret { ok := false, count := none,
                         errorMsg := some ("Raw pod list HTTP " ++ toString s ++ ": " ++ bodyS),
                         status := some s, base := some base }) ∧
    (∀ (r : RawResult) (m : String),
      r.ok = false → r.errorMsg = some m →
      paramRegexSig m = false → permissionRegexSig m = true →
      listPodsDecision r = ListPodsDecision.useRaw) ∧
    (∀ (r : RawResult) (m : String),
      r.ok = false → r.errorMsg = some m →
      paramRegexSig m = false → permissionRegexSig m = false →
      listPodsDecision r = ListPodsDecision.clientFallback) ∧
    permissionRegexSig "Raw pod list HTTP 403: pods is forbidden: User cannot list resource" = true ∧
    paramRegexSig "Raw pod list HTTP 403: pods is forbidden: User cannot list resource" = false := by
  refine ⟨?_, ?_, ?_, ?_, ?_, by decide, by decide⟩
  · intro env impl retry base code msg rest lastNet h
    unfold rawListPodsLoop
    simp [h]
    cases rest <;> rfl
  · intro env impl retry c msg base
    rfl
  · intro env impl retry base s bodyS rest lastNet
    rfl
  · intro r m hok herr hpar hperm
    unfold listPodsDecision
    simp [hok, herr, hpar, hperm]
  · intro r m hok herr hpar hperm
    unfold listPodsDecision
    simp [hok, herr, hpar, hperm]

/-- Witness for the amended C8 at concrete inputs: a connection-refused
candidate falls through to the next one, and a 403 diagnostic is a
permission stop with no structured-client fallback. -/
theorem c8_endpoint_iteration_amended_witness :
    rawListPodsLoop
        { skipVerify := false, allowTlsFallbackFlag := false, caPresent := true }
        (fun _ => JsOutcome.ok false) (FetchOutcome.okList 0)
        [("https://10.0.0.1:6443",
          FetchOutcome.fetchErr (some "ECONNREFUSED") "connect ECONNREFUSED")]
        none =
      rawListPodsLoop
        { skipVerify := false, allowTlsFallbackFlag := false, caPresent := true }
        (fun _ => JsOutcome.ok false) (FetchOutcome.okList 0) []
        (some (some "ECONNREFUSED", "connect ECONNREFUSED",
          "https://10.0.0.1:6443")) ∧
    listPodsDecision
        { ok := false, count := none,
          errorMsg := some "Raw pod list HTTP 403: pods is forbidden: User cannot list resource",
          status := some 403, base := some "https://10.0.0.1:6443" } =
      ListPodsDecision.useRaw :=
  ⟨c8_endpoint_iteration_amended.1
      { skipVerify := false, allowTlsFallbackFlag := false, caPresent := true }
      (fun _ => JsOutcome.ok false) (FetchOutcome.okList 0)
      "https://10.0.0.1:6443" (some "ECONNREFUSED") "connect ECONNREFUSED"
      [] none (by decide),
   c8_endpoint_iteration_amended.2.2.2.1
      { ok := false, count := none,
        errorMsg := some "Raw pod list HTTP 403: pods is forbidden: User cannot list resource"
        status := some 403, base := some "https://10.0.0.1:6443" }
      "Raw pod list HTTP 403: pods is forbidden: User cannot list resource"
      rfl rfl (by decide) (by decide)⟩

/-- Claim C9 counterexample: a fetch failure in the RBAC self-check with
the TLS-fallback opt-in unset never reaches tlsShouldFallback — the
conjunction short-circuits on allowFallback — and the documented
error entry is returned, not a thrown ReferenceError. -/
theorem c9_rbac_shortcircuit_counterexample :
    rbacCatch
        { skipVerify := false, allowTlsFallbackFlag := false, caPresent := true }
        (fun _ => JsOutcome.ok true) "list pods" "fetch failed"
        (RbacRetryOutcome.verdict true) =
      RbacFlow.pushed { action := "list pods", allowed := false,
                        reason := none, errorMsg := some "fetch failed" } := by
  decide

/-- Claim C9 amended: tlsShouldFallback is bound by no definition of the
file; in rawListPods every fetch failure not classified as network-level
evaluates it (line 263 evaluates it before the opt-in flag) and therefore
throws a ReferenceError instead of returning the documented diagnostic
result — whatever implementation the identifier would have had; in the
RBAC self-check the guard short-circuits on the opt-in flag, so the
ReferenceError is thrown exactly when ALLOW_TLS_FALLBACK or
SKIP_K8S_TLS_VERIFY is set, and without the opt-in the documented error
entry is returned. -/
theorem c9_undefined_identifier_amended :
    part001Identifiers.contains "tlsShouldFallback" = false ∧
    (∀ (env : ProbeEnv) (impl : String → JsOutcome Bool) (e base : String)
        (retry : FetchOutcome),
      rawCatchNonNetwork env impl e base retry =
        CatchFlow.thrown "ReferenceError: tlsShouldFallback is not defined") ∧
    (∀ (env : ProbeEnv) (impl : String → JsOutcome Bool)
        (retry : FetchOutcome) (base : String) (code : Option String)
        (msg : String) (rest : List (String × FetchOutcome))
        (lastNet : Option (Option String × String × String)),
      isNetworkErrorCode code = false →
      rawListPodsLoop env impl retry
          ((base, FetchOutcome.fetchErr code msg) :: rest) lastNet =
        RawOutcome.thrown "ReferenceError: tlsShouldFallback is not defined") ∧
    (∀ (env : ProbeEnv) (impl : String → JsOutcome Bool) (a e : String)
        (retry : RbacRetryOutcome),
      allowFallback env = true →
      rbacCatch env impl a e retry =
        RbacFlow.thrown "ReferenceError: tlsShouldFallback is not defined") ∧
    (∀ (env : ProbeEnv) (impl : String → JsOutcome Bool) (a e : String)
        (retry : RbacRetryOutcome),
      allowFallback env = false →
      rbacCatch env impl a e retry =
        RbacFlow.pushed { action := a, allowed := false, reason := none,
                          errorMsg := some e }) := by
  refine ⟨by decide, ?_, ?_, ?_, ?_⟩
  · intro env impl e base retry
    rfl
  · intro env impl retry base code msg rest lastNet h
    unfold rawListPodsLoop
    simp [h]
    rfl
  · intro env impl a e retry hflag
    unfold rbacCatch
    simp [jsAnd, hflag, callIdent, part001Identifiers]
  · intro env impl a e retry hflag
    unfold rbacCatch
    simp [jsAnd, hflag]

/-- Witness for the amended C9 at a concrete non-network fetch failure and
a concrete opt-in environment. -/
theorem c9_undefined_identifier_amended_witness :
    rawListPodsLoop
        { skipVerify := false, allowTlsFallbackFlag := false, caPresent := true }
        (fun _ => JsOutcome.ok true) (FetchOutcome.okList 0)
        [("https://10.0.0.1:6443",
          FetchOutcome.fetchErr none "unable to verify the first certificate")]
        none =
      RawOutcome.thrown "ReferenceError: tlsShouldFallback is not defined" ∧
    rbacCatch
        { skipVerify := true, allowTlsFallbackFlag := false, caPresent := true }
        (fun _ => JsOutcome.ok true) "create jobs" "certificate error"
        (RbacRetryOutcome.verdict true) =
      RbacFlow.thrown "ReferenceError: tlsShouldFallback is not defined" :=
  ⟨c9_undefined_identifier_amended.2.2.1
      { skipVerify := false, allowTlsFallbackFlag := false, caPresent := true }
      (fun _ => JsOutcome.ok true) (FetchOutcome.okList 0)
      "https://10.0.0.1:6443" none "unable to verify the first certificate"
      [] none (by decide),
   c9_undefined_identifier_amended.2.2.2.1
      { skipVerify := true, allowTlsFallbackFlag := false, caPresent := true }
      (fun _ => JsOutcome.ok true) "create jobs" "certificate error"
      (RbacRetryOutcome.verdict true) (by decide)⟩

/-- Claim C10: on a fetched version whose major/minor parse after
stripping non-digits, the preflight proceeds past the version gate iff
major > 1 or (major = 1 and minor >= 31); any parseable version below
1.31 blocks job submission; a failed version fetch skips the check, and a
version field whose coercion throws (a caught TypeError, e.g. a numeric
field) also skips it. -/
theorem c10_version_gate :
    (∀ (sMa sMi : String) (M m : Nat) (nsl : NsListOutcome)
        (s : SubmitOutcome),
      parseDigits ⟨sMa.data.filter Char.isDigit⟩ = some M →
      parseDigits ⟨sMi.data.filter Char.isDigit⟩ = some m →
      ((versionCheckStep (VersionFetch.fetched
          (some (JsVal.str sMa, JsVal.str sMi))) = none ↔
        (M > 1 ∨ (M = 1 ∧ m ≥ 31))) ∧
       (¬ (M > 1 ∨ (M = 1 ∧ m ≥ 31)) →
        (runJobHandlerServerJs none
          (validateK8sConnectivityModel
            (VersionFetch.fetched (some (JsVal.str sMa, JsVal.str sMi))) nsl)
          s).submitAttempted = false ∧
        (runJobHandlerServerJs none
          (validateK8sConnectivityModel
            (VersionFetch.fetched (some (JsVal.str sMa, JsVal.str sMi))) nsl)
          s).status = 400))) ∧
    versionCheckStep VersionFetch.fetchFail = none ∧
    (∀ (n : Int) (v : JsVal), ¬ n = 0 →
      versionCheckStep (VersionFetch.fetched (some (JsVal.intVal n, v))) =
        none) := by
  refine ⟨?_, rfl, ?_⟩
  · intro sMa sMi M m nsl s hM hm
    constructor
    · unfold versionCheckStep isVersionSupported jsOrEmptyStripNonDigits
      unfold MIN_SUPPORTED_MAJOR MIN_SUPPORTED_MINOR
      simp only [hM, hm]
      split_ifs with h1 h2
      · simp
        omega
      · simp
        omega
      · by_cases h3 : m ≥ 31
        · simp [h3]
          omega
        · simp [h3]
          omega
    · intro hns
      unfold validateK8sConnectivityModel versionCheckStep isVersionSupported
      unfold jsOrEmptyStripNonDigits MIN_SUPPORTED_MAJOR MIN_SUPPORTED_MINOR
      simp only [hM, hm]
      split_ifs with h1 h2
      · exact absurd (Or.inl h1) hns
      · exact ⟨rfl, rfl⟩
      · have h3 : ¬ m ≥ 31 := by
          intro hge
          exact hns (Or.inr ⟨by omega, hge⟩)
        simp only [h3, decide_eq_true_eq, decide_eq_false h3]
        exact ⟨rfl, rfl⟩
  · intro n v hn
    unfold versionCheckStep isVersionSupported jsOrEmptyStripNonDigits
    simp [hn]

/-- Witness for C10 at the concrete unsupported version 1.30+. -/
theorem c10_version_gate_witness :
    (runJobHandlerServerJs none
        (validateK8sConnectivityModel
          (VersionFetch.fetched (some (JsVal.str "1", JsVal.str "30+")))
          NsListOutcome.okList)
        (SubmitOutcome.okName "backup-database")).submitAttempted = false :=
  ((c10_version_gate.1 "1" "30+" 1 30 NsListOutcome.okList
      (SubmitOutcome.okName "backup-database")
      (by decide) (by decide)).2 (by decide)).1

/-- Witness for C7 at a concrete character of the example slug. -/
theorem c7_builder_pure_slug_no_whitespace_witness :
    jsWhitespace 'b' = false :=
  c7_builder_pure_slug_no_whitespace.2.2.1 "Backup Database" 'b' (by decide)
